import Mathlib

/-!
Shallow embedding of the cluster-x worker coordinator (class WorkerCreator,
generator-queue variant of the source). JS arrays are lists in front-to-back
order: the JS pop takes the last element (the tail of the queue) and unshift
inserts at the front (the head). JS numbers used as counters are modelled as
Int, since `this._runningServicesCount--` can in principle pass below zero.
The totalForked field is a ghost history variable counting cluster.fork
calls; it does not occur in the source and is never read by the embedded
operations. Console output is modelled only where a claim mentions it, as
the list of raw text arguments handed to the logging helpers (the chalk
colour codes and the `[ERROR]:`-style prefixes added by console-log-customs
are presentation only).
-/

namespace ClusterX

/-- Environment-variable mapping, the ENV_VARIABLES string map. -/
def EnvMap : Type := String → Option String

/-- ClusterManagerConfig from interfaces.ts (loop-aware variant). The
beforeStart hook is an opaque external effect and is not part of the state. -/
structure ClusterManagerConfig where
  workerLimit : Int
  env : EnvMap
  args : List String
  silentMode : Bool
  loop : Bool

/-- Mutable fields of the WorkerCreator class plus the suspended-generator
flag. genDone records that the queueManager generator has completed (its
while loop exited), after which every next() stays done. exitCode is the
process exit status once process.exit has been called; totalForked is a
ghost counter of cluster.fork calls. -/
structure CoordinatorState where
  _queue : List String
  _runningService : Option String
  _runningServicesCount : Int
  _runningWorkers : List Nat
  _configuration : ClusterManagerConfig
  genDone : Bool
  exitCode : Option Nat
  totalForked : Nat

/-- setService: pop the last queue element, remember it as the running
service, write it into env.SCRAPER, and when the loop flag is set unshift
the same element back at the front. The queueManager generator only calls
this when the queue is nonempty; the none branch models the JS pop of an
empty array returning undefined (env.SCRAPER set to undefined). -/
def setService (s : CoordinatorState) : CoordinatorState :=
  match s._queue.getLast? with
  | some svc =>
      { s with
        _runningService := some svc
        _configuration :=
          { s._configuration with
            env := fun k => if k = "SCRAPER" then some svc else s._configuration.env k }
        _queue :=
          if s._configuration.loop then svc :: s._queue.dropLast else s._queue.dropLast }
  | none =>
      { s with
        _runningService := none
        _configuration :=
          { s._configuration with
            env := fun k => if k = "SCRAPER" then none else s._configuration.env k } }

/-- One resumption of the queueManager generator, i.e. one this._gen.next()
call. The generator body is while (queue.length > 0) yield setService(); a
resumption re-checks the condition on the current queue, runs setService
when it holds, and completes (done = true, latched) when the queue is empty. -/
def genNext (s : CoordinatorState) : Bool × CoordinatorState :=
  if s.genDone then (true, s)
  else if 0 < s._queue.length then (false, setService s)
  else (true, { s with genDone := true })

/-- createWorker (generator-queue variant): when below the worker limit,
resume the generator; if it reports done, log and process.exit(0); otherwise
cluster.fork the worker (counted by the ghost field) and increment the
running counter. At capacity it only logs FULL QUEUE. -/
def createWorker (s : CoordinatorState) : CoordinatorState :=
  if s._runningServicesCount < s._configuration.workerLimit then
    match genNext s with
    | (true, s2) => { s2 with exitCode := some 0 }
    | (false, s2) =>
        { s2 with
          _runningServicesCount := s2._runningServicesCount + 1
          totalForked := s2.totalForked + 1 }
  else s

/-- The first half of the exit handler: lodash remove of the worker id from
_runningWorkers followed by the decrement of _runningServicesCount. -/
def release (s : CoordinatorState) (id : Nat) : CoordinatorState :=
  { s with
    _runningWorkers := s._runningWorkers.filter (fun x => x != id)
    _runningServicesCount := s._runningServicesCount - 1 }

/-- The three control-message action values of the ClusterActions type. -/
inductive ClusterActions where
  | checkQueue
  | handleError
  | unhandledException
deriving DecidableEq

/-- ClusterCommunicator from interfaces.ts: optional action, optional text. -/
structure ClusterCommunicator where
  actions : Option ClusterActions
  message : Option String

/-- The message listener attached by messageReader: console.log the message
field when it is truthy (present and nonempty, matching the JS
if (communicator.message) test), then switch on actions where every case
only breaks. Returns the unchanged state and the console output. -/
def messageReader (s : CoordinatorState) (c : ClusterCommunicator) :
    CoordinatorState × List String :=
  (match c.actions with
   | some .checkQueue => s
   | some .handleError => s
   | some .unhandledException => s
   | none => s,
   match c.message with
   | some t => if t != "" then [t] else []
   | none => [])

/-- Lifecycle events delivered by the host process manager to the handlers
registered in configureEventHandlers and messageReader. The exit event
carries the JS code (null when killed by a signal) and the signal name. -/
inductive ClusterEvent where
  | fork (id : Nat)
  | online (id : Nat)
  | exit (id : Nat) (code : Option Int) (signal : Option String)
  | message (c : ClusterCommunicator)

/-- The fork-event handler: push the worker id onto _runningWorkers, return
early when the queue is empty, otherwise call createWorker and log. -/
def forkHandler (s : CoordinatorState) (id : Nat) : CoordinatorState :=
  if ({ s with _runningWorkers := s._runningWorkers ++ [id] } :
      CoordinatorState)._queue.length = 0 then
    { s with _runningWorkers := s._runningWorkers ++ [id] }
  else createWorker { s with _runningWorkers := s._runningWorkers ++ [id] }

/-- The exit-event handler: log (the crash test code !== 0 only selects the
log line, so code and signal do not influence the state), remove the worker
id and decrement the counter, then unconditionally call createWorker. -/
def exitHandler (s : CoordinatorState) (id : Nat) (code : Option Int)
    (signal : Option String) : CoordinatorState :=
  createWorker (release s id)

/-- One handler invocation. Once process.exit has run no handler runs. The
online handler only logs; a message runs the messageReader body. -/
def step (s : CoordinatorState) (e : ClusterEvent) : CoordinatorState :=
  if s.exitCode.isSome then s
  else
    match e with
    | .fork id => forkHandler s id
    | .online _ => s
    | .exit id code signal => exitHandler s id code signal
    | .message c => (messageReader s c).1

/-- The parsed cluster-config.yml document. -/
structure ConfigFile where
  QUEUE : List String
  ARGS : List String
  LOOP : Bool
  ENV_VARIABLES : EnvMap
  SILENT_MODE : Bool
  WORKER_LIMIT : Int

/-- The WorkerCreator fields right after the constructor ran: zero counter,
empty queue, empty configuration object. -/
def initialState : CoordinatorState :=
  { _queue := []
    _runningService := none
    _runningServicesCount := 0
    _runningWorkers := []
    _configuration :=
      { workerLimit := 0, env := fun _ => none, args := [], silentMode := false, loop := false }
    genDone := false
    exitCode := none
    totalForked := 0 }

/-- setConfig with its console output: on a successful read copy the QUEUE,
ARGS, LOOP, ENV_VARIABLES, SILENT_MODE and WORKER_LIMIT fields; when
readYamlConfiguration throws (parsed = none), log the failure and
process.exit(0). -/
def setConfigResult (s : CoordinatorState) (parsed : Option ConfigFile) :
    CoordinatorState × List String :=
  match parsed with
  | some c =>
      ({ s with
          _queue := c.QUEUE
          _configuration :=
            { workerLimit := c.WORKER_LIMIT
              env := c.ENV_VARIABLES
              args := c.ARGS
              silentMode := c.SILENT_MODE
              loop := c.LOOP } }, [])
  | none => ({ s with exitCode := some 0 }, ["Cannot load initial config."])

/-- setConfig, state part only. -/
def setConfig (s : CoordinatorState) (parsed : Option ConfigFile) : CoordinatorState :=
  (setConfigResult s parsed).1

/-- createMasterProcess: setConfig, create the generator, setupMaster, await
beforeStart (external, no coordinator-state effect), then the first
createWorker call. When setConfig already called process.exit nothing else
runs. -/
def createMasterProcess (parsed : Option ConfigFile) : CoordinatorState :=
  let s := setConfig initialState parsed
  if s.exitCode.isSome then s else createWorker s

/-- A whole master-side run: createMasterProcess followed by any finite
interleaving of delivered lifecycle events. -/
def runMaster (parsed : Option ConfigFile) (events : List ClusterEvent) : CoordinatorState :=
  events.foldl step (createMasterProcess parsed)

/-- Iterated generator resumption, used to state queue-only properties. -/
def iterDequeue (s : CoordinatorState) : Nat → CoordinatorState
  | 0 => s
  | n + 1 => iterDequeue (genNext s).2 n

/-- A JS value as the errorHandler switch on typeof distinguishes them:
null (typeof object, but Object.entries throws a TypeError on it), the
undefined value, an object with its enumerable string entries, or any other
value carried by its toString text. -/
inductive JSValue where
  | jsNull
  | undef
  | obj (entries : List (String × String))
  | prim (toStr : String)
deriving DecidableEq

/-- errorHandler: switch (typeof error). The object case iterates
Object.entries and logs one key-value line per entry, so it throws on null
(modelled by none); the undefined case logs a fixed text; the default case
logs the toString of the value. -/
def errorHandler : JSValue → Option (List String)
  | .jsNull => none
  | .obj es => some (es.map fun kv => kv.1 ++ ": " ++ kv.2)
  | .undef => some ["Catch undefined error."]
  | .prim t => some ["Worker failed with reason: " ++ t]

/-- The catch block of start: errorHandler(error) then process.exit(1).
When errorHandler itself throws, process.exit(1) is never reached (none). -/
def startErrorPath (e : JSValue) : Option (List String × Nat) :=
  (errorHandler e).map fun logs => (logs, 1)

section PreservationLemmas

@[simp]
theorem setService_count (s : CoordinatorState) :
    (setService s)._runningServicesCount = s._runningServicesCount := by
  unfold setService; cases s._queue.getLast? <;> rfl

@[simp]
theorem setService_workers (s : CoordinatorState) :
    (setService s)._runningWorkers = s._runningWorkers := by
  unfold setService; cases s._queue.getLast? <;> rfl

@[simp]
theorem setService_limit (s : CoordinatorState) :
    (setService s)._configuration.workerLimit = s._configuration.workerLimit := by
  unfold setService; cases s._queue.getLast? <;> rfl

@[simp]
theorem setService_loop (s : CoordinatorState) :
    (setService s)._configuration.loop = s._configuration.loop := by
  unfold setService; cases s._queue.getLast? <;> rfl

@[simp]
theorem setService_genDone (s : CoordinatorState) :
    (setService s).genDone = s.genDone := by
  unfold setService; cases s._queue.getLast? <;> rfl

@[simp]
theorem setService_exitCode (s : CoordinatorState) :
    (setService s).exitCode = s.exitCode := by
  unfold setService; cases s._queue.getLast? <;> rfl

@[simp]
theorem setService_forked (s : CoordinatorState) :
    (setService s).totalForked = s.totalForked := by
  unfold setService; cases s._queue.getLast? <;> rfl

theorem setService_queue_noloop (s : CoordinatorState)
    (hl : s._configuration.loop = false) :
    (setService s)._queue = s._queue.dropLast := by
  unfold setService
  cases hq : s._queue.getLast? with
  | none => have : s._queue = [] := by simpa using hq
            simp [this]
  | some svc => simp [hl]

theorem genNext_count (s : CoordinatorState) :
    (genNext s).2._runningServicesCount = s._runningServicesCount := by
  unfold genNext; split
  · rfl
  · split <;> simp

theorem genNext_workers (s : CoordinatorState) :
    (genNext s).2._runningWorkers = s._runningWorkers := by
  unfold genNext; split
  · rfl
  · split <;> simp

theorem genNext_limit (s : CoordinatorState) :
    (genNext s).2._configuration.workerLimit = s._configuration.workerLimit := by
  unfold genNext; split
  · rfl
  · split <;> simp

theorem genNext_loop (s : CoordinatorState) :
    (genNext s).2._configuration.loop = s._configuration.loop := by
  unfold genNext; split
  · rfl
  · split <;> simp

theorem genNext_exitCode (s : CoordinatorState) :
    (genNext s).2.exitCode = s.exitCode := by
  unfold genNext; split
  · rfl
  · split <;> simp

theorem genNext_forked (s : CoordinatorState) :
    (genNext s).2.totalForked = s.totalForked := by
  unfold genNext; split
  · rfl
  · split <;> simp

theorem messageReader_state (s : CoordinatorState) (c : ClusterCommunicator) :
    (messageReader s c).1 = s := by
  unfold messageReader
  rcases c.actions with _ | a
  · rfl
  · cases a <;> rfl

@[simp]
theorem release_limit (s : CoordinatorState) (id : Nat) :
    (release s id)._configuration.workerLimit = s._configuration.workerLimit := rfl

@[simp]
theorem release_loop (s : CoordinatorState) (id : Nat) :
    (release s id)._configuration.loop = s._configuration.loop := rfl

@[simp]
theorem release_count (s : CoordinatorState) (id : Nat) :
    (release s id)._runningServicesCount = s._runningServicesCount - 1 := rfl

@[simp]
theorem release_queue (s : CoordinatorState) (id : Nat) :
    (release s id)._queue = s._queue := rfl

theorem createWorker_limit (s : CoordinatorState) :
    (createWorker s)._configuration.workerLimit = s._configuration.workerLimit := by
  unfold createWorker
  split
  · split <;> rename_i heq
    · have := genNext_limit s
      rw [heq] at this
      simpa using this
    · have := genNext_limit s
      rw [heq] at this
      simpa using this
  · rfl

theorem createWorker_loop (s : CoordinatorState) :
    (createWorker s)._configuration.loop = s._configuration.loop := by
  unfold createWorker
  split
  · split <;> rename_i heq
    · have := genNext_loop s
      rw [heq] at this
      simpa using this
    · have := genNext_loop s
      rw [heq] at this
      simpa using this
  · rfl

theorem createWorker_count_le (s : CoordinatorState)
    (h : s._runningServicesCount ≤ s._configuration.workerLimit) :
    (createWorker s)._runningServicesCount ≤
      (createWorker s)._configuration.workerLimit := by
  have hlim := createWorker_limit s
  rw [hlim]
  unfold createWorker
  split
  · split <;> rename_i hlt heq
    · have hc := genNext_count s
      rw [heq] at hc
      simpa using hc.le.trans h
    · have hc := genNext_count s
      rw [heq] at hc
      simp only [] at hc ⊢
      omega
  · exact h

theorem step_dead (s : CoordinatorState) (e : ClusterEvent)
    (h : s.exitCode.isSome) : step s e = s := by
  unfold step; simp [h]

theorem step_fork_eq (s : CoordinatorState) (id : Nat)
    (h : s.exitCode = none) : step s (.fork id) = forkHandler s id := by
  unfold step; simp [h]

theorem step_online_eq (s : CoordinatorState) (id : Nat)
    (h : s.exitCode = none) : step s (.online id) = s := by
  unfold step; simp [h]

theorem step_exit_eq (s : CoordinatorState) (id : Nat) (code : Option Int)
    (signal : Option String) (h : s.exitCode = none) :
    step s (.exit id code signal) = createWorker (release s id) := by
  unfold step; simp [h, exitHandler]

theorem step_message_eq (s : CoordinatorState) (c : ClusterCommunicator)
    (h : s.exitCode = none) : step s (.message c) = s := by
  unfold step; simp [h, messageReader_state]

theorem forkHandler_limit (s : CoordinatorState) (id : Nat) :
    (forkHandler s id)._configuration.workerLimit = s._configuration.workerLimit := by
  unfold forkHandler
  split
  · rfl
  · rw [createWorker_limit]

theorem forkHandler_loop (s : CoordinatorState) (id : Nat) :
    (forkHandler s id)._configuration.loop = s._configuration.loop := by
  unfold forkHandler
  split
  · rfl
  · rw [createWorker_loop]

theorem step_limit (s : CoordinatorState) (e : ClusterEvent) :
    (step s e)._configuration.workerLimit = s._configuration.workerLimit := by
  by_cases h : s.exitCode.isSome
  · rw [step_dead s e h]
  · have hn : s.exitCode = none := Option.not_isSome_iff_eq_none.mp h
    cases e with
    | fork id => rw [step_fork_eq s id hn, forkHandler_limit]
    | online id => rw [step_online_eq s id hn]
    | exit id code signal =>
        rw [step_exit_eq s id code signal hn, createWorker_limit, release_limit]
    | message c => rw [step_message_eq s c hn]

theorem step_loop (s : CoordinatorState) (e : ClusterEvent) :
    (step s e)._configuration.loop = s._configuration.loop := by
  by_cases h : s.exitCode.isSome
  · rw [step_dead s e h]
  · have hn : s.exitCode = none := Option.not_isSome_iff_eq_none.mp h
    cases e with
    | fork id => rw [step_fork_eq s id hn, forkHandler_loop]
    | online id => rw [step_online_eq s id hn]
    | exit id code signal =>
        rw [step_exit_eq s id code signal hn, createWorker_loop, release_loop]
    | message c => rw [step_message_eq s c hn]

theorem step_count_le (s : CoordinatorState) (e : ClusterEvent)
    (h : s._runningServicesCount ≤ s._configuration.workerLimit) :
    (step s e)._runningServicesCount ≤ (step s e)._configuration.workerLimit := by
  by_cases hd : s.exitCode.isSome
  · rw [step_dead s e hd]; exact h
  · have hn : s.exitCode = none := Option.not_isSome_iff_eq_none.mp hd
    cases e with
    | fork id =>
        rw [step_fork_eq s id hn]
        unfold forkHandler
        split
        · exact h
        · exact createWorker_count_le _ h
    | online id => rw [step_online_eq s id hn]; exact h
    | exit id code signal =>
        rw [step_exit_eq s id code signal hn]
        refine createWorker_count_le _ ?_
        show s._runningServicesCount - 1 ≤ s._configuration.workerLimit
        omega
    | message c => rw [step_message_eq s c hn]; exact h

theorem genNext_of_genDone (s : CoordinatorState) (hg : s.genDone = true) :
    genNext s = (true, s) := by
  unfold genNext; simp [hg]

theorem genNext_active (s : CoordinatorState) (hg : s.genDone = false)
    (hlen : 0 < s._queue.length) :
    genNext s = (false, setService s) := by
  unfold genNext; simp [hg, hlen]

theorem genNext_latch (s : CoordinatorState) (hg : s.genDone = false)
    (hlen : s._queue.length = 0) :
    genNext s = (true, { s with genDone := true }) := by
  unfold genNext; simp [hg, hlen]

theorem createWorker_at_capacity (s : CoordinatorState)
    (h : ¬s._runningServicesCount < s._configuration.workerLimit) :
    createWorker s = s := by
  unfold createWorker; simp [h]

theorem createWorker_done (s : CoordinatorState)
    (hlt : s._runningServicesCount < s._configuration.workerLimit)
    (hd : (genNext s).1 = true) :
    createWorker s = { (genNext s).2 with exitCode := some 0 } := by
  unfold createWorker
  rcases hg : genNext s with ⟨b, s2⟩
  rw [hg] at hd
  simp only [] at hd
  subst hd
  simp [hlt]

theorem createWorker_spawn (s : CoordinatorState)
    (hlt : s._runningServicesCount < s._configuration.workerLimit)
    (hd : (genNext s).1 = false) :
    createWorker s =
      { (genNext s).2 with
        _runningServicesCount := (genNext s).2._runningServicesCount + 1
        totalForked := (genNext s).2.totalForked + 1 } := by
  unfold createWorker
  rcases hg : genNext s with ⟨b, s2⟩
  rw [hg] at hd
  simp only [] at hd
  subst hd
  simp [hlt]

end PreservationLemmas

section Invariants

/-- The inductive invariant behind the no-loop draining claims: with the
loop flag cleared, the ghost fork counter plus what is left of the queue is
exactly the initial queue length, a completed generator means an empty
queue, and a process exit (status 0) is only ever issued once the queue is
empty. -/
def DrainInv (n : Nat) (s : CoordinatorState) : Prop :=
  s._configuration.loop = false ∧
  s.totalForked + s._queue.length = n ∧
  (s.genDone = true → s._queue = []) ∧
  (s.exitCode = some 0 → s._queue = [])

theorem createWorker_drainInv (n : Nat) (s : CoordinatorState)
    (hI : DrainInv n s) : DrainInv n (createWorker s) := by
  obtain ⟨hl, hsum, hgd, hex⟩ := hI
  by_cases hlt : s._runningServicesCount < s._configuration.workerLimit
  · by_cases hg : s.genDone
    · rw [createWorker_done s hlt (by rw [genNext_of_genDone s hg]),
          genNext_of_genDone s hg]
      exact ⟨hl, hsum, hgd, fun _ => hgd hg⟩
    · have hg0 : s.genDone = false := by simpa using hg
      by_cases hlen : 0 < s._queue.length
      · rw [createWorker_spawn s hlt (by rw [genNext_active s hg0 hlen]),
            genNext_active s hg0 hlen]
        refine ⟨by simpa using hl, ?_, ?_, ?_⟩
        · have hq := setService_queue_noloop s hl
          show (setService s).totalForked + 1 + (setService s)._queue.length = n
          rw [setService_forked, hq, List.length_dropLast]
          omega
        · show (setService s).genDone = true → (setService s)._queue = []
          rw [setService_genDone, hg0]
          intro hc
          exact absurd hc (by simp)
        · show (setService s).exitCode = some 0 → (setService s)._queue = []
          rw [setService_exitCode]
          intro hc
          have : s._queue = [] := hex hc
          rw [setService_queue_noloop s hl, this]
          rfl
      · have hlen0 : s._queue.length = 0 := by omega
        have hqnil : s._queue = [] := List.length_eq_zero.mp hlen0
        rw [createWorker_done s hlt (by rw [genNext_latch s hg0 hlen0]),
            genNext_latch s hg0 hlen0]
        exact ⟨hl, by simpa using hsum, fun _ => hqnil, fun _ => hqnil⟩
  · rw [createWorker_at_capacity s hlt]
    exact ⟨hl, hsum, hgd, hex⟩

theorem step_drainInv (n : Nat) (s : CoordinatorState) (e : ClusterEvent)
    (hI : DrainInv n s) : DrainInv n (step s e) := by
  by_cases hd : s.exitCode.isSome
  · rwa [step_dead s e hd]
  · have hn : s.exitCode = none := Option.not_isSome_iff_eq_none.mp hd
    obtain ⟨hl, hsum, hgd, hex⟩ := hI
    cases e with
    | fork id =>
        rw [step_fork_eq s id hn]
        unfold forkHandler
        split
        · exact ⟨hl, hsum, hgd, hex⟩
        · exact createWorker_drainInv n _ ⟨hl, hsum, hgd, hex⟩
    | online id =>
        rw [step_online_eq s id hn]
        exact ⟨hl, hsum, hgd, hex⟩
    | exit id code signal =>
        rw [step_exit_eq s id code signal hn]
        exact createWorker_drainInv n _ ⟨hl, hsum, hgd, hex⟩
    | message c =>
        rw [step_message_eq s c hn]
        exact ⟨hl, hsum, hgd, hex⟩

theorem foldl_drainInv (n : Nat) (events : List ClusterEvent)
    (s : CoordinatorState) (hI : DrainInv n s) :
    DrainInv n (events.foldl step s) := by
  induction events generalizing s with
  | nil => simpa using hI
  | cons e es ih => exact ih _ (step_drainInv n s e hI)

theorem foldl_count_le (events : List ClusterEvent) (s : CoordinatorState)
    (h : s._runningServicesCount ≤ s._configuration.workerLimit) :
    (events.foldl step s)._runningServicesCount ≤
      (events.foldl step s)._configuration.workerLimit := by
  induction events generalizing s with
  | nil => simpa using h
  | cons e es ih => exact ih _ (step_count_le s e h)

theorem createWorker_queue_len (s : CoordinatorState)
    (hl : s._configuration.loop = false) :
    (createWorker s)._queue.length ≤ s._queue.length := by
  by_cases hlt : s._runningServicesCount < s._configuration.workerLimit
  · by_cases hg : s.genDone
    · rw [createWorker_done s hlt (by rw [genNext_of_genDone s hg]),
          genNext_of_genDone s hg]
    · have hg0 : s.genDone = false := by simpa using hg
      by_cases hlen : 0 < s._queue.length
      · rw [createWorker_spawn s hlt (by rw [genNext_active s hg0 hlen]),
            genNext_active s hg0 hlen]
        show (setService s)._queue.length ≤ s._queue.length
        rw [setService_queue_noloop s hl, List.length_dropLast]
        omega
      · have hlen0 : s._queue.length = 0 := by omega
        rw [createWorker_done s hlt (by rw [genNext_latch s hg0 hlen0]),
            genNext_latch s hg0 hlen0]
  · rw [createWorker_at_capacity s hlt]

theorem step_queue_len (s : CoordinatorState) (e : ClusterEvent)
    (hl : s._configuration.loop = false) :
    (step s e)._queue.length ≤ s._queue.length := by
  by_cases hd : s.exitCode.isSome
  · rw [step_dead s e hd]
  · have hn : s.exitCode = none := Option.not_isSome_iff_eq_none.mp hd
    cases e with
    | fork id =>
        rw [step_fork_eq s id hn]
        unfold forkHandler
        split
        · exact le_refl _
        · exact createWorker_queue_len _ hl
    | online id => rw [step_online_eq s id hn]
    | exit id code signal =>
        rw [step_exit_eq s id code signal hn]
        exact createWorker_queue_len _ hl
    | message c => rw [step_message_eq s c hn]

theorem foldl_queue_len (events : List ClusterEvent) (s : CoordinatorState)
    (hl : s._configuration.loop = false) :
    (events.foldl step s)._queue.length ≤ s._queue.length := by
  induction events generalizing s with
  | nil => exact le_refl _
  | cons e es ih =>
      refine le_trans (ih _ ?_) (step_queue_len s e hl)
      rw [step_loop]; exact hl

theorem createWorker_exitCode_cases (s : CoordinatorState) :
    (createWorker s).exitCode = s.exitCode ∨ (createWorker s).exitCode = some 0 := by
  unfold createWorker
  split
  · split <;> rename_i heq
    · right; rfl
    · left
      have := genNext_exitCode s
      rw [heq] at this
      simpa using this
  · left; rfl

theorem step_exitCode_cases (s : CoordinatorState) (e : ClusterEvent)
    (h : s.exitCode = none ∨ s.exitCode = some 0) :
    (step s e).exitCode = none ∨ (step s e).exitCode = some 0 := by
  by_cases hd : s.exitCode.isSome
  · rw [step_dead s e hd]; exact h
  · have hn : s.exitCode = none := Option.not_isSome_iff_eq_none.mp hd
    cases e with
    | fork id =>
        rw [step_fork_eq s id hn]
        unfold forkHandler
        split
        · left; exact hn
        · rcases createWorker_exitCode_cases
            ({ s with _runningWorkers := s._runningWorkers ++ [id] }) with hc | hc
          · left; rw [hc]; exact hn
          · right; exact hc
    | online id => rw [step_online_eq s id hn]; left; exact hn
    | exit id code signal =>
        rw [step_exit_eq s id code signal hn]
        rcases createWorker_exitCode_cases (release s id) with hc | hc
        · left; rw [hc]; exact hn
        · right; exact hc
    | message c => rw [step_message_eq s c hn]; left; exact hn

theorem foldl_exitCode_cases (events : List ClusterEvent) (s : CoordinatorState)
    (h : s.exitCode = none ∨ s.exitCode = some 0) :
    (events.foldl step s).exitCode = none ∨
      (events.foldl step s).exitCode = some 0 := by
  induction events generalizing s with
  | nil => simpa using h
  | cons e es ih => exact ih _ (step_exitCode_cases s e h)

end Invariants

section InitialAndLoop

theorem createMasterProcess_some (c : ConfigFile) :
    createMasterProcess (some c) = createWorker (setConfig initialState (some c)) := rfl

theorem createMasterProcess_none :
    createMasterProcess none = { initialState with exitCode := some 0 } := rfl

theorem setService_queue_loop (s : CoordinatorState)
    (hl : s._configuration.loop = true) (x : String) (pre : List String)
    (h : s._queue = pre ++ [x]) :
    (setService s)._queue = x :: pre := by
  have hlast : s._queue.getLast? = some x := by rw [h]; simp
  unfold setService
  rw [hlast]
  simp [hl, h]

theorem setService_perm_loop (s : CoordinatorState)
    (hl : s._configuration.loop = true) (hq : s._queue ≠ []) :
    List.Perm (setService s)._queue s._queue ∧ (setService s)._queue ≠ [] := by
  rcases s._queue.eq_nil_or_concat with h0 | ⟨pre, x, h⟩
  · exact absurd h0 hq
  · rw [List.concat_eq_append] at h
    rw [setService_queue_loop s hl x pre h, h]
    exact ⟨(List.perm_append_singleton x pre).symm, by simp⟩

theorem iterDequeue_loop_inv (n : Nat) (s : CoordinatorState)
    (hl : s._configuration.loop = true) (hg : s.genDone = false)
    (hq : s._queue ≠ []) :
    List.Perm (iterDequeue s n)._queue s._queue ∧
    (iterDequeue s n).genDone = false ∧
    (iterDequeue s n)._configuration.loop = true := by
  induction n generalizing s with
  | zero => exact ⟨List.Perm.refl _, hg, hl⟩
  | succ m ih =>
      have hlen : 0 < s._queue.length := List.length_pos.mpr hq
      rcases setService_perm_loop s hl hq with ⟨hperm, hne⟩
      obtain ⟨p, g, l⟩ := ih (setService s) (by rw [setService_loop]; exact hl)
        (by rw [setService_genDone]; exact hg) hne
      have heq : iterDequeue s (m + 1) = iterDequeue (setService s) m := by
        show iterDequeue (genNext s).2 m = iterDequeue (setService s) m
        rw [genNext_active s hg hlen]
      rw [heq]
      exact ⟨p.trans hperm, g, l⟩

end InitialAndLoop

section SampleInputs

/-- A sample configuration used by the closed witness theorems. -/
def sampleConfig : ConfigFile :=
  { QUEUE := ["j1", "j2", "j3"]
    ARGS := []
    LOOP := false
    ENV_VARIABLES := fun _ => none
    SILENT_MODE := false
    WORKER_LIMIT := 2 }

/-- A sample configuration with an empty job queue. -/
def emptyQueueConfig : ConfigFile :=
  { QUEUE := []
    ARGS := []
    LOOP := false
    ENV_VARIABLES := fun _ => none
    SILENT_MODE := false
    WORKER_LIMIT := 1 }

/-- A sample mid-run coordinator state used by the closed witness theorems. -/
def sampleState : CoordinatorState :=
  { _queue := ["a", "b"]
    _runningService := none
    _runningServicesCount := 2
    _runningWorkers := [3, 7]
    _configuration :=
      { workerLimit := 2, env := fun _ => none, args := [], silentMode := false, loop := false }
    genDone := false
    exitCode := none
    totalForked := 2 }

/-- A sample coordinator state with the loop flag set. -/
def loopState : CoordinatorState :=
  { _queue := ["a", "b", "c"]
    _runningService := none
    _runningServicesCount := 1
    _runningWorkers := [1]
    _configuration :=
      { workerLimit := 1, env := fun _ => none, args := [], silentMode := false, loop := true }
    genDone := false
    exitCode := none
    totalForked := 1 }

end SampleInputs

section Claims

/-- C1: for every configuration with a non-negative workerLimit, at every
reachable coordinator state under any interleaving of fork, online, exit and
message events, _runningServicesCount is at most the configured workerLimit:
createWorker forks only below the limit and each exit event decrements the
count exactly once before its respawn attempt. -/
theorem runningCount_le_workerLimit (c : ConfigFile)
    (events : List ClusterEvent) (h : 0 ≤ c.WORKER_LIMIT) :
    (runMaster (some c) events)._runningServicesCount ≤
      (runMaster (some c) events)._configuration.workerLimit := by
  unfold runMaster
  refine foldl_count_le events _ ?_
  rw [createMasterProcess_some]
  refine createWorker_count_le _ ?_
  show (0 : Int) ≤ c.WORKER_LIMIT
  exact h

/-- C1 witness: the bound holds concretely for the sample configuration
under a fork followed by a clean exit. -/
theorem runningCount_le_workerLimit_witness :
    (0 : Int) ≤ sampleConfig.WORKER_LIMIT ∧
    (runMaster (some sampleConfig)
        [ClusterEvent.fork 1, ClusterEvent.online 1,
         ClusterEvent.exit 1 (some 0) none])._runningServicesCount ≤
      (runMaster (some sampleConfig)
        [ClusterEvent.fork 1, ClusterEvent.online 1,
         ClusterEvent.exit 1 (some 0) none])._configuration.workerLimit :=
  ⟨by decide,
   runningCount_le_workerLimit sampleConfig
     [ClusterEvent.fork 1, ClusterEvent.online 1, ClusterEvent.exit 1 (some 0) none]
     (by decide)⟩

/-- C2: with the loop flag cleared, along any event interleaving the queue
length never increases, the ghost spawn counter plus the remaining queue
length always equals the initial queue length (one fork per successful
dequeue), and when the coordinator has terminated (process.exit(0) at the
drained generator) the queue is empty and exactly initialQueueLength workers
were spawned in total. -/
theorem noLoop_drains_exactly (c : ConfigFile) (events : List ClusterEvent)
    (hl : c.LOOP = false) :
    (∀ pre post, events = pre ++ post →
      (runMaster (some c) events)._queue.length ≤
        (runMaster (some c) pre)._queue.length) ∧
    (runMaster (some c) events).totalForked +
        (runMaster (some c) events)._queue.length = c.QUEUE.length ∧
    ((runMaster (some c) events).exitCode = some 0 →
      (runMaster (some c) events)._queue = [] ∧
      (runMaster (some c) events).totalForked = c.QUEUE.length) := by
  have hinv0 : DrainInv c.QUEUE.length (setConfig initialState (some c)) := by
    refine ⟨hl, ?_, ?_, ?_⟩
    · show 0 + c.QUEUE.length = c.QUEUE.length
      omega
    · intro hgd
      simp [setConfig, setConfigResult, initialState] at hgd
    · intro hex
      simp [setConfig, setConfigResult, initialState] at hex
  have hinit : DrainInv c.QUEUE.length (createMasterProcess (some c)) := by
    rw [createMasterProcess_some]
    exact createWorker_drainInv _ _ hinv0
  have hinv : DrainInv c.QUEUE.length (runMaster (some c) events) :=
    foldl_drainInv _ events _ hinit
  refine ⟨?_, hinv.2.1, ?_⟩
  · intro pre post hsplit
    subst hsplit
    have hpre : DrainInv c.QUEUE.length (runMaster (some c) pre) :=
      foldl_drainInv _ pre _ hinit
    show ((pre ++ post).foldl step (createMasterProcess (some c)))._queue.length ≤ _
    rw [List.foldl_append]
    exact foldl_queue_len post _ hpre.1
  · intro hex
    have hqnil := hinv.2.2.2 hex
    refine ⟨hqnil, ?_⟩
    have hsum := hinv.2.1
    rw [hqnil] at hsum
    simpa using hsum

/-- C2 witness: the spawn accounting holds concretely for the sample
configuration after no events. -/
theorem noLoop_drains_exactly_witness :
    sampleConfig.LOOP = false ∧
    (runMaster (some sampleConfig) []).totalForked +
        (runMaster (some sampleConfig) [])._queue.length =
      sampleConfig.QUEUE.length :=
  ⟨rfl, (noLoop_drains_exactly sampleConfig [] rfl).2.1⟩

/-- C3: a dequeue step (setService) removes exactly the tail element of the
queue, re-inserts it at the head exactly when the loop flag is set, records
it as the running service and writes it into the SCRAPER key of the
environment mapping, touching no other environment key. -/
theorem setService_dequeues_tail (s : CoordinatorState) (x : String)
    (pre : List String) (h : s._queue = pre ++ [x]) :
    (setService s)._runningService = some x ∧
    (setService s)._configuration.env "SCRAPER" = some x ∧
    (setService s)._queue =
      (if s._configuration.loop then x :: pre else pre) ∧
    (∀ k, k ≠ "SCRAPER" → (setService s)._configuration.env k =
      s._configuration.env k) := by
  have hlast : s._queue.getLast? = some x := by rw [h]; simp
  unfold setService
  rw [hlast]
  refine ⟨rfl, by simp, ?_, ?_⟩
  · simp only []
    rw [h]
    by_cases hl : s._configuration.loop <;> simp [hl]
  · intro k hk
    simp [hk]

/-- C3 witness: dequeuing from the sample state takes the tail element b,
stores it in env.SCRAPER, and (loop disabled) does not re-insert it. -/
theorem setService_dequeues_tail_witness :
    sampleState._queue = ["a"] ++ ["b"] ∧
    (setService sampleState)._runningService = some "b" ∧
    (setService sampleState)._configuration.env "SCRAPER" = some "b" :=
  ⟨rfl, (setService_dequeues_tail sampleState "b" ["a"] rfl).1,
        (setService_dequeues_tail sampleState "b" ["a"] rfl).2.1⟩

/-- C4: with the loop flag set and a nonempty queue, any number of dequeue
operations leaves the queue a permutation of the original (hence constant
length and unchanged set of distinct identifiers), and the generator never
reports done. -/
theorem loop_queue_is_ring (s : CoordinatorState) (n : Nat)
    (hl : s._configuration.loop = true) (hg : s.genDone = false)
    (hq : s._queue ≠ []) :
    List.Perm (iterDequeue s n)._queue s._queue ∧
    (iterDequeue s n)._queue.length = s._queue.length ∧
    (iterDequeue s n)._queue.toFinset = s._queue.toFinset ∧
    (genNext (iterDequeue s n)).1 = false := by
  obtain ⟨hperm, hgd, hlp⟩ := iterDequeue_loop_inv n s hl hg hq
  have hlen : (iterDequeue s n)._queue.length = s._queue.length :=
    hperm.length_eq
  refine ⟨hperm, hlen, List.toFinset_eq_of_perm _ _ hperm, ?_⟩
  have hpos : 0 < (iterDequeue s n)._queue.length := by
    rw [hlen]
    exact List.length_pos.mpr hq
  rw [genNext_active _ hgd hpos]

/-- C4 witness: three dequeues on the three-element looping state preserve
the queue length and the generator stays active. -/
theorem loop_queue_is_ring_witness :
    loopState._configuration.loop = true ∧ loopState.genDone = false ∧
    loopState._queue ≠ [] ∧
    (iterDequeue loopState 3)._queue.length = loopState._queue.length ∧
    (genNext (iterDequeue loopState 3)).1 = false :=
  ⟨rfl, rfl, by decide,
   (loop_queue_is_ring loopState 3 rfl rfl (by decide)).2.1,
   (loop_queue_is_ring loopState 3 rfl rfl (by decide)).2.2.2⟩

/-- C5: a worker exit event, whatever its code or signal, first releases
the worker (decrements the running count by exactly one and removes the id
from the running-worker set) and then requests one replacement spawn via
createWorker, all within the same atomically processed handler; the state
reached does not depend on the exit cause. -/
theorem exit_releases_once_then_respawns (s : CoordinatorState) (id : Nat)
    (code code2 : Option Int) (signal signal2 : Option String)
    (h : s.exitCode = none) :
    step s (.exit id code signal) = createWorker (release s id) ∧
    (release s id)._runningServicesCount = s._runningServicesCount - 1 ∧
    id ∉ (release s id)._runningWorkers ∧
    step s (.exit id code signal) = step s (.exit id code2 signal2) := by
  refine ⟨step_exit_eq s id code signal h, rfl, ?_, ?_⟩
  · simp [release, List.mem_filter]
  · rw [step_exit_eq s id code signal h, step_exit_eq s id code2 signal2 h]

/-- C5 witness: releasing worker 7 from the sample state decrements the
count and removes the id, for a crashed exit code. -/
theorem exit_releases_once_then_respawns_witness :
    sampleState.exitCode = none ∧
    (release sampleState 7)._runningServicesCount =
      sampleState._runningServicesCount - 1 ∧
    7 ∉ (release sampleState 7)._runningWorkers :=
  ⟨rfl,
   (exit_releases_once_then_respawns sampleState 7 (some 1) (some 0)
     none none rfl).2.1,
   (exit_releases_once_then_respawns sampleState 7 (some 1) (some 0)
     none none rfl).2.2.1⟩

/-- C6: with an empty queue at construction, loop disabled and a positive
worker limit, the first generator resumption reports done (no job available,
no service selected) and the coordinator terminates immediately with
process.exit(0) without having forked any worker. -/
theorem empty_queue_terminates_without_fork (c : ConfigFile)
    (hq : c.QUEUE = []) (hl : c.LOOP = false) (hw : 0 < c.WORKER_LIMIT) :
    (createMasterProcess (some c)).exitCode = some 0 ∧
    (createMasterProcess (some c)).totalForked = 0 ∧
    (genNext (setConfig initialState (some c))).1 = true ∧
    (genNext (setConfig initialState (some c))).2._runningService = none := by
  have hq0 : (setConfig initialState (some c))._queue.length = 0 := by
    show c.QUEUE.length = 0
    rw [hq]
    rfl
  have hglatch := genNext_latch (setConfig initialState (some c)) rfl hq0
  have hlt : (setConfig initialState (some c))._runningServicesCount <
      (setConfig initialState (some c))._configuration.workerLimit := by
    show (0 : Int) < c.WORKER_LIMIT
    exact hw
  refine ⟨?_, ?_, ?_, ?_⟩
  · rw [createMasterProcess_some, createWorker_done _ hlt (by rw [hglatch])]
  · rw [createMasterProcess_some, createWorker_done _ hlt (by rw [hglatch])]
    show (genNext (setConfig initialState (some c))).2.totalForked = 0
    rw [hglatch]
    rfl
  · rw [hglatch]
  · rw [hglatch]
    rfl

/-- C6 witness: the empty-queue configuration terminates at once with exit
status 0 and zero forks. -/
theorem empty_queue_terminates_without_fork_witness :
    emptyQueueConfig.QUEUE = [] ∧ emptyQueueConfig.LOOP = false ∧
    (0 : Int) < emptyQueueConfig.WORKER_LIMIT ∧
    (createMasterProcess (some emptyQueueConfig)).exitCode = some 0 ∧
    (createMasterProcess (some emptyQueueConfig)).totalForked = 0 :=
  ⟨rfl, rfl, by decide,
   (empty_queue_terminates_without_fork emptyQueueConfig rfl rfl (by decide)).1,
   (empty_queue_terminates_without_fork emptyQueueConfig rfl rfl (by decide)).2.1⟩

/-- C7: errorHandler classifies by the shape of the value: an object with
enumerable entries gets one key-value log line per entry, the undefined
value gets the fixed unknown-error line, and any other value gets its
toString representation; in each of these cases the catch block of start
then terminates the process with exit status 1. -/
theorem errorHandler_classifies_by_shape (e : JSValue)
    (h : e ≠ JSValue.jsNull) :
    (∀ es, e = JSValue.obj es →
      errorHandler e = some (es.map fun kv => kv.1 ++ ": " ++ kv.2)) ∧
    (e = JSValue.undef → errorHandler e = some ["Catch undefined error."]) ∧
    (∀ t, e = JSValue.prim t →
      errorHandler e = some ["Worker failed with reason: " ++ t]) ∧
    (∃ logs, startErrorPath e = some (logs, 1)) := by
  refine ⟨?_, ?_, ?_, ?_⟩
  · rintro es rfl
    rfl
  · rintro rfl
    rfl
  · rintro t rfl
    rfl
  · cases e with
    | jsNull => exact absurd rfl h
    | undef => exact ⟨_, rfl⟩
    | obj es => exact ⟨_, rfl⟩
    | prim t => exact ⟨_, rfl⟩

/-- C7 witness: the structured error with keys a and b produces both
key-value lines and exit status 1. -/
theorem errorHandler_classifies_by_shape_witness :
    JSValue.obj [("a", "1"), ("b", "2")] ≠ JSValue.jsNull ∧
    errorHandler (JSValue.obj [("a", "1"), ("b", "2")]) =
      some ["a: 1", "b: 2"] ∧
    (∃ logs, startErrorPath (JSValue.obj [("a", "1"), ("b", "2")]) =
      some (logs, 1)) := by
  refine ⟨by decide, ?_, ?_⟩
  · exact (errorHandler_classifies_by_shape (JSValue.obj [("a", "1"), ("b", "2")])
      (by decide)).1 [("a", "1"), ("b", "2")] rfl
  · exact (errorHandler_classifies_by_shape
      (JSValue.obj [("a", "1"), ("b", "2")]) (by decide)).2.2.2

/-- C8: a fatal top-level error (any non-null value escaping start) exits
with status 1; a failed configuration load logs the failure and exits with
status 0 before any worker is forked; and the running coordinator only ever
issues exit status 0 (normal drained termination). -/
theorem process_exit_codes (e : JSValue) (he : e ≠ JSValue.jsNull)
    (parsed : Option ConfigFile) (events : List ClusterEvent) :
    (∃ logs, startErrorPath e = some (logs, 1)) ∧
    (createMasterProcess none).exitCode = some 0 ∧
    (createMasterProcess none).totalForked = 0 ∧
    (setConfigResult initialState none).2 = ["Cannot load initial config."] ∧
    ((runMaster parsed events).exitCode = none ∨
      (runMaster parsed events).exitCode = some 0) := by
  refine ⟨?_, rfl, rfl, rfl, ?_⟩
  · cases e with
    | jsNull => exact absurd rfl he
    | undef => exact ⟨_, rfl⟩
    | obj es => exact ⟨_, rfl⟩
    | prim t => exact ⟨_, rfl⟩
  · unfold runMaster
    refine foldl_exitCode_cases events _ ?_
    cases parsed with
    | none => right; rfl
    | some c =>
        rw [createMasterProcess_some]
        rcases createWorker_exitCode_cases (setConfig initialState (some c))
          with hc | hc
        · left
          rw [hc]
          rfl
        · right
          exact hc

/-- C8 witness: instantiated at the undefined error, a failing config load
and an empty event list. -/
theorem process_exit_codes_witness :
    JSValue.undef ≠ JSValue.jsNull ∧
    (∃ logs, startErrorPath JSValue.undef = some (logs, 1)) ∧
    ((runMaster none []).exitCode = none ∨
      (runMaster none []).exitCode = some 0) :=
  ⟨by decide,
   (process_exit_codes JSValue.undef (by decide) none []).1,
   (process_exit_codes JSValue.undef (by decide) none []).2.2.2.2⟩

/-- C9 counterexample: a control message whose message field is present but
equal to the empty string is not printed, because the listener tests JS
truthiness rather than presence; the claim that a present message is always
printed verbatim fails at this input. -/
theorem messageReader_present_empty_not_printed :
    (({ actions := none, message := some "" } :
        ClusterCommunicator).message).isSome = true ∧
    (messageReader initialState
      { actions := none, message := some "" }).2 = [] :=
  ⟨rfl, rfl⟩

/-- C9 amended: handling any control message leaves the coordinator state
(queue, running count, running set, configuration) entirely unchanged; the
message field is printed verbatim exactly when it is present and nonempty,
and each action branch is a no-op. -/
theorem messageReader_frame_and_print (s : CoordinatorState)
    (c : ClusterCommunicator) :
    (messageReader s c).1 = s ∧
    (∀ t, c.message = some t → t ≠ "" → (messageReader s c).2 = [t]) ∧
    (c.message = none → (messageReader s c).2 = []) ∧
    (c.message = some "" → (messageReader s c).2 = []) := by
  refine ⟨messageReader_state s c, ?_, ?_, ?_⟩
  · intro t ht hne
    show (match c.message with
          | some t => if t != "" then [t] else []
          | none => []) = [t]
    rw [ht]
    simp [hne]
  · intro hn
    show (match c.message with
          | some t => if t != "" then [t] else []
          | none => []) = []
    rw [hn]
  · intro h0
    show (match c.message with
          | some t => if t != "" then [t] else []
          | none => []) = []
    rw [h0]
    rfl

/-- C9 witness: a nonempty message is printed verbatim and the state is
unchanged. -/
theorem messageReader_frame_and_print_witness :
    (messageReader initialState
      { actions := some ClusterActions.checkQueue, message := some "hi" }).1 =
      initialState ∧
    (messageReader initialState
      { actions := some ClusterActions.checkQueue, message := some "hi" }).2 =
      ["hi"] :=
  ⟨(messageReader_frame_and_print initialState
      { actions := some ClusterActions.checkQueue, message := some "hi" }).1,
   (messageReader_frame_and_print initialState
      { actions := some ClusterActions.checkQueue, message := some "hi" }).2.1
      "hi" rfl (by decide)⟩

/-- C10: errorHandler is not total: at the null input (typeof object with
no enumerable entries) the Object.entries enumeration throws, so no log
report is produced and the subsequent process.exit(1) of start is never
reached. -/
theorem errorHandler_null_throws :
    errorHandler JSValue.jsNull = none ∧
    startErrorPath JSValue.jsNull = none :=
  ⟨rfl, rfl⟩

end Claims

end ClusterX
